import Mathlib

/-!
Verification of the CleosTelegramBot data-entry bot (src/bot.py).

The bot runs a five-step linear conversation (Cash, Card, Uber, Deliveroo,
App), validating each message with `is_number` (a try/except around Python's
built-in float conversion), storing raw texts in the per-conversation
`user_data` dict, and on the last step appending one row
[timestamp, sender name, cash, card, uber, deliveroo, app] to a spreadsheet.
A Flask app serves `/`, `/health` and `/healthz` with a constant "OK".

The embedding below models: the acceptance behaviour of Python's `float`
on strings (ASCII fragment of CPython's grammar), the `is_number` helper over
arbitrary Python values, the six conversation handlers, and the dispatch of
`conv_handler` (entry point `/start`, per-state `MessageHandler` with
`filters.TEXT & ~filters.COMMAND`, fallback `/cancel`), as a step function on
an explicit configuration (active state, session, sheet contents).
-/

namespace CleosBot

/-- ASCII whitespace stripped by CPython around a float literal
(space, tab, newline, carriage return, vertical tab, form feed). -/
def isPySpace (c : Char) : Bool :=
  c = ' ' || c = '\t' || c = '\n' || c = '\r' || c = Char.ofNat 11 || c = Char.ofNat 12

/-- Strip `isPySpace` characters from both ends. -/
def stripPy (cs : List Char) : List Char :=
  ((cs.dropWhile isPySpace).reverse.dropWhile isPySpace).reverse

/-- Consume a run of decimal digits in which every underscore must be
surrounded by digits (CPython's PEP 515 rule for numeric literals). -/
def munchDigits : List Char → List Char
  | '_' :: c :: rest => if c.isDigit then munchDigits rest else '_' :: c :: rest
  | c :: rest => if c.isDigit then munchDigits rest else c :: rest
  | [] => []

/-- `digitpart`: at least one digit, then digits possibly separated by single
underscores; returns the unconsumed rest, or `none` if no leading digit. -/
def parseDigits : List Char → Option (List Char)
  | c :: rest => if c.isDigit then some (munchDigits rest) else none
  | [] => none

/-- Mantissa of a float literal: `digitpart ["." [digitpart]]` or
`"." digitpart`; returns the unconsumed rest. -/
def parseMantissa (cs : List Char) : Option (List Char) :=
  match parseDigits cs with
  | some rest =>
    match rest with
    | '.' :: r =>
      match parseDigits r with
      | some r2 => some r2
      | none => some r
    | _ => some rest
  | none =>
    match cs with
    | '.' :: r => parseDigits r
    | _ => none

/-- Exponent tail after the `e`/`E`: `[sign] digitpart`, consuming the rest. -/
def expTailOK (cs : List Char) : Bool :=
  match cs with
  | '+' :: r =>
    match parseDigits r with
    | some [] => true
    | _ => false
  | '-' :: r =>
    match parseDigits r with
    | some [] => true
    | _ => false
  | _ =>
    match parseDigits cs with
    | some [] => true
    | _ => false

/-- A full (unsigned) numeric float literal: mantissa plus optional exponent. -/
def numberOK (cs : List Char) : Bool :=
  match parseMantissa cs with
  | some [] => true
  | some ('e' :: r) => expTailOK r
  | some ('E' :: r) => expTailOK r
  | some _ => false
  | none => false

/-- Unsigned body of a float literal: `inf`, `infinity` or `nan`
(case-insensitively), or a numeric literal. -/
def bodyOK (cs : List Char) : Bool :=
  let l := cs.map Char.toLower
  if l = "inf".toList || l = "infinity".toList || l = "nan".toList then true
  else numberOK cs

/-- Whether CPython's `float()` accepts the string: optional surrounding
whitespace, optional sign, then `inf`/`infinity`/`nan` or a decimal literal
with optional fraction, exponent and underscore grouping. (ASCII model:
CPython additionally accepts non-ASCII Unicode digits and spaces.) -/
def float_accepts (s : String) : Bool :=
  match stripPy s.toList with
  | '+' :: rest => bodyOK rest
  | '-' :: rest => bodyOK rest
  | cs => bodyOK cs

/-- A Python value passed to `is_number`. Non-string cases are modelled by
the outcome of calling `float` on them: ints succeed below the IEEE double
overflow threshold, bools always succeed, `None` raises `TypeError`, and an
arbitrary object is abstracted by the result of its `__float__` call. -/
inductive PyValue where
  | str (s : String)
  | int (n : Int)
  | boolean (b : Bool)
  | pynone
  | obj (floatCall : Except String Unit)

/-- Outcome of the call `float(value)`: `.ok` if the conversion succeeds,
`.error` naming the exception otherwise. The int overflow threshold is
modelled at `2 ^ 1024 - 2 ^ 970`, the smallest magnitude that rounds to
infinity in IEEE binary64. -/
def pyFloatTry : PyValue → Except String Unit
  | .str s => if float_accepts s then .ok () else .error "ValueError"
  | .int n => if n.natAbs < 2 ^ 1024 - 2 ^ 970 then .ok () else .error "OverflowError"
  | .boolean _ => .ok ()
  | .pynone => .error "TypeError"
  | .obj r => r

/-- `is_number` from src/bot.py lines 135-140:
`try: float(value); return True; except: return False`.
The result type `Except String Bool` records a potentially escaping
exception; the bare `except:` clause maps every failure to `.ok false`. -/
def is_number (value : PyValue) : Except String Bool :=
  match pyFloatTry value with
  | .ok _ => .ok true
  | .error _ => .ok false

/-- `is_number` specialised to the `str` argument that the message handlers
pass (`update.message.text` is always a string); total because `is_number`
never returns `.error` (see `is_number_total_safe`). -/
def is_numberStr (value : String) : Bool :=
  match is_number (.str value) with
  | .ok b => b
  | .error _ => false

/-- The spec's notion of numeric text, written from its words only (for
comparison with `is_number`): "parses as a finite real number (integer or
decimal, optionally signed; no locale-specific grouping)" — an optional sign,
then decimal digits with at most one decimal point carrying a digit on at
least one side. -/
def specNumBody (cs : List Char) : Bool :=
  let intPart := cs.takeWhile Char.isDigit
  let rest := cs.dropWhile Char.isDigit
  match rest with
  | [] => !intPart.isEmpty
  | '.' :: frac => (!intPart.isEmpty || !frac.isEmpty) && frac.all Char.isDigit
  | _ => false

/-- Spec-side validator: optionally signed finite decimal text
(see `specNumBody`). -/
def specFiniteReal (s : String) : Bool :=
  match s.toList with
  | '+' :: rest => specNumBody rest
  | '-' :: rest => specNumBody rest
  | cs => specNumBody cs

/-! ## Conversation data model -/

/-- The per-conversation `context.user_data` dict; the handlers only ever
write the keys "Cash", "Card", "Uber", "Deliveroo", "App", each holding the
raw message text. -/
structure Session where
  cash : Option String
  card : Option String
  uber : Option String
  deliveroo : Option String
  app : Option String
deriving DecidableEq, Repr

/-- `context.user_data.clear()` / a fresh `user_data`. -/
def emptySession : Session := ⟨none, none, none, none, none⟩

/-- Conversation states, `CASH, CARD, UBER, DELIVEROO, APP = range(5)`
(src/bot.py line 129). -/
def CASH : Int := 0

def CARD : Int := 1

def UBER : Int := 2

def DELIVEROO : Int := 3

def APP : Int := 4

/-- `ConversationHandler.END`. -/
def END : Int := -1

/-- What a handler invocation produces: the state it returns, the resulting
`user_data`, the replies it sent, and the rows it appended to the sheet. -/
structure HandlerOut where
  ret : Int
  session : Session
  replies : List String
  appended : List (List String)
deriving DecidableEq, Repr

/-- Per-event environment: the timestamp `datetime.now()` formats to, the
sender's `full_name`, and whether the external `sheet.append_row` call would
succeed. -/
structure Env where
  ts : String
  name : String
  sinkOk : Bool
deriving DecidableEq, Repr

/-- `start` handler (src/bot.py lines 146-148): replies with the Cash prompt
and returns CASH; it does not touch `user_data`. -/
def start (d : Session) : HandlerOut :=
  ⟨CASH, d, ["Enter Cash amount:"], []⟩

/-- `cash` handler (lines 151-159). -/
def cash (value : String) (d : Session) : HandlerOut :=
  if is_numberStr value = false then
    ⟨CASH, d, ["❌ Please enter a valid number for Cash."], []⟩
  else
    ⟨CARD, { d with cash := some value }, ["Enter Card amount:"], []⟩

/-- `card` handler (lines 162-170). -/
def card (value : String) (d : Session) : HandlerOut :=
  if is_numberStr value = false then
    ⟨CARD, d, ["❌ Please enter a valid number for Card."], []⟩
  else
    ⟨UBER, { d with card := some value }, ["Enter Uber amount:"], []⟩

/-- `uber` handler (lines 173-181). -/
def uber (value : String) (d : Session) : HandlerOut :=
  if is_numberStr value = false then
    ⟨UBER, d, ["❌ Please enter a valid number for Uber."], []⟩
  else
    ⟨DELIVEROO, { d with uber := some value }, ["Enter Deliveroo amount:"], []⟩

/-- `deliveroo` handler (lines 184-192). -/
def deliveroo (value : String) (d : Session) : HandlerOut :=
  if is_numberStr value = false then
    ⟨DELIVEROO, d, ["❌ Please enter a valid number for Deliveroo."], []⟩
  else
    ⟨APP, { d with deliveroo := some value }, ["Enter App amount:"], []⟩

/-- `app_amount` handler (lines 195-232): validates, stores "App", builds
the row from the five dict entries, tries `sheet.append_row`, replies with
the success or failure message, clears `user_data` and returns END. A
missing dict key would raise `KeyError` out of the handler, modelled as
`none` (never reached from a reachable configuration, see
`session_invariant_reachable`). -/
def app_amount (env : Env) (value : String) (d : Session) : Option HandlerOut :=
  if is_numberStr value = false then
    some ⟨APP, d, ["❌ Please enter a valid number for App."], []⟩
  else
    let d1 := { d with app := some value }
    match d1.cash, d1.card, d1.uber, d1.deliveroo, d1.app with
    | some c, some cd, some u, some dl, some a =>
      let row := [env.ts, env.name, c, cd, u, dl, a]
      if env.sinkOk then
        some ⟨END, emptySession, ["✅ All values saved successfully!"], [row]⟩
      else
        some ⟨END, emptySession, ["❌ Error saving to Google Sheet. Check logs."], []⟩
    | _, _, _, _, _ => none

/-- `cancel` handler (lines 235-238): clears `user_data`, replies, END. -/
def cancel (_d : Session) : HandlerOut :=
  ⟨END, emptySession, ["Entry cancelled."], []⟩

/-! ## Dispatch (`conv_handler`, src/bot.py lines 245-255) -/

/-- An inbound Telegram message as the handler filters see it: either a
bot command (`filters.COMMAND`: text starting with a /command entity) or a
plain text message. -/
inductive Msg where
  | command (name : String)
  | text (s : String)
deriving DecidableEq, Repr

/-- The observable configuration: the active conversation state (`none` when
no conversation is active), the per-conversation `user_data`, and the rows
of the external sheet. -/
structure Config where
  conv : Option Int
  session : Session
  sheet : List (List String)
deriving DecidableEq, Repr

/-- Fold a handler's output into the configuration. -/
def applyOut (cfg : Config) (out : HandlerOut) : Config × List String :=
  (⟨if out.ret = END then none else some out.ret,
    out.session, cfg.sheet ++ out.appended⟩, out.replies)

/-- One dispatch of `conv_handler` on an update, following
python-telegram-bot semantics with the default `allow_reentry=False`:
with no active conversation only the entry point `/start` matches; with an
active conversation the state's `MessageHandler(filters.TEXT &
~filters.COMMAND, h)` handles plain text, and otherwise the fallback
`CommandHandler("cancel", cancel)` is tried; anything else leaves the
configuration untouched. Returns `none` when the invoked handler raises. -/
def step (env : Env) (msg : Msg) (cfg : Config) : Option (Config × List String) :=
  match cfg.conv with
  | none =>
    match msg with
    | .command n =>
      if n = "start" then some (applyOut cfg (start cfg.session)) else some (cfg, [])
    | .text _ => some (cfg, [])
  | some st =>
    match msg with
    | .text s =>
      if st = CASH then some (applyOut cfg (cash s cfg.session))
      else if st = CARD then some (applyOut cfg (card s cfg.session))
      else if st = UBER then some (applyOut cfg (uber s cfg.session))
      else if st = DELIVEROO then some (applyOut cfg (deliveroo s cfg.session))
      else if st = APP then
        match app_amount env s cfg.session with
        | some out => some (applyOut cfg out)
        | none => none
      else some (cfg, [])
    | .command n =>
      if n = "cancel" then some (applyOut cfg (cancel cfg.session)) else some (cfg, [])

/-- `step`, keeping only the configuration. -/
def stepc (env : Env) (msg : Msg) (cfg : Config) : Option Config :=
  (step env msg cfg).map Prod.fst

/-- One inbound update together with its environment. -/
structure Event where
  env : Env
  msg : Msg

/-- Run a sequence of events. -/
def run : List Event → Config → Option Config
  | [], cfg => some cfg
  | e :: evs, cfg =>
    match stepc e.env e.msg cfg with
    | some cfg2 => run evs cfg2
    | none => none

/-- The configuration at process start: no conversation, empty `user_data`,
whatever is on the sheet taken as empty. -/
def init : Config := ⟨none, emptySession, []⟩

/-- A configuration the bot can actually be in. -/
def Reachable (cfg : Config) : Prop := ∃ evs, run evs init = some cfg

/-! ## Session-shape invariant -/

/-- All five fields present (the shape flushed to the sink). -/
def fullSession (d : Session) : Bool :=
  d.cash.isSome && d.card.isSome && d.uber.isSome && d.deliveroo.isSome && d.app.isSome

/-- The session shape paired with each conversation state: exactly the
fields of the already-validated steps are set; outside a conversation the
session is empty. -/
def sessionInvB (cfg : Config) : Bool :=
  match cfg.conv with
  | none =>
    cfg.session.cash.isNone && cfg.session.card.isNone && cfg.session.uber.isNone
      && cfg.session.deliveroo.isNone && cfg.session.app.isNone
  | some st =>
    if st = CASH then
      cfg.session.cash.isNone && cfg.session.card.isNone && cfg.session.uber.isNone
        && cfg.session.deliveroo.isNone && cfg.session.app.isNone
    else if st = CARD then
      cfg.session.cash.isSome && cfg.session.card.isNone && cfg.session.uber.isNone
        && cfg.session.deliveroo.isNone && cfg.session.app.isNone
    else if st = UBER then
      cfg.session.cash.isSome && cfg.session.card.isSome && cfg.session.uber.isNone
        && cfg.session.deliveroo.isNone && cfg.session.app.isNone
    else if st = DELIVEROO then
      cfg.session.cash.isSome && cfg.session.card.isSome && cfg.session.uber.isSome
        && cfg.session.deliveroo.isNone && cfg.session.app.isNone
    else if st = APP then
      cfg.session.cash.isSome && cfg.session.card.isSome && cfg.session.uber.isSome
        && cfg.session.deliveroo.isSome && cfg.session.app.isNone
    else false

/-! ## Liveness responder (Flask app, src/bot.py lines 11-17) -/

/-- The `health` view function: body "OK" with status 200. -/
def health : String × Nat := ("OK", 200)

/-- The Flask routing table: `/`, `/health` and `/healthz` are all bound to
the same `health` view; any other path has no handler. -/
def healthRoute (path : String) : Option (String × Nat) :=
  if path = "/" || path = "/health" || path = "/healthz" then some health
  else none

/-- The state-specific validation error prompt re-emitted on invalid input. -/
def errPrompt (st : Int) : String :=
  if st = CASH then "❌ Please enter a valid number for Cash."
  else if st = CARD then "❌ Please enter a valid number for Card."
  else if st = UBER then "❌ Please enter a valid number for Uber."
  else if st = DELIVEROO then "❌ Please enter a valid number for Deliveroo."
  else if st = APP then "❌ Please enter a valid number for App."
  else ""

/-! ## Helper lemmas -/

/-- One dispatch preserves the session-shape invariant. -/
lemma inv_step {env : Env} {msg : Msg} {cfg cfg' : Config}
    (hinv : sessionInvB cfg = true) (hstep : stepc env msg cfg = some cfg') :
    sessionInvB cfg' = true := by
  obtain ⟨conv, ⟨c1, c2, c3, c4, c5⟩, sh⟩ := cfg
  cases conv with
  | none =>
    simp only [sessionInvB, Bool.and_eq_true, Option.isNone_iff_eq_none] at hinv
    obtain ⟨⟨⟨⟨e1, e2⟩, e3⟩, e4⟩, e5⟩ := hinv
    subst e1; subst e2; subst e3; subst e4; subst e5
    cases msg with
    | command n =>
      by_cases hn : n = "start"
      · simp [stepc, step, hn, applyOut, start, CASH, END] at hstep
        subst hstep
        simp [sessionInvB, CASH, CARD, UBER, DELIVEROO, APP]
      · simp [stepc, step, hn] at hstep
        subst hstep
        simp [sessionInvB]
    | text s =>
      simp [stepc, step] at hstep
      subst hstep
      simp [sessionInvB]
  | some st =>
    cases msg with
    | command n =>
      by_cases hn : n = "cancel"
      · simp [stepc, step, hn, applyOut, cancel, END, emptySession] at hstep
        subst hstep
        simp [sessionInvB, emptySession]
      · simp [stepc, step, hn] at hstep
        subst hstep
        exact hinv
    | text s =>
      by_cases h0 : st = CASH
      · subst h0
        simp [sessionInvB, CASH, CARD, UBER, DELIVEROO, APP,
          Option.isNone_iff_eq_none] at hinv
        obtain ⟨⟨⟨⟨e1, e2⟩, e3⟩, e4⟩, e5⟩ := hinv
        subst e1; subst e2; subst e3; subst e4; subst e5
        by_cases hv : is_numberStr s = false
        · simp [stepc, step, cash, hv, applyOut, CASH, CARD, UBER, DELIVEROO, APP, END]
            at hstep
          subst hstep
          simp [sessionInvB, CASH, CARD, UBER, DELIVEROO, APP]
        · simp [stepc, step, cash, hv, applyOut, CASH, CARD, UBER, DELIVEROO, APP, END]
            at hstep
          subst hstep
          simp [sessionInvB, CASH, CARD, UBER, DELIVEROO, APP]
      · by_cases h1 : st = CARD
        · subst h1
          simp [sessionInvB, CASH, CARD, UBER, DELIVEROO, APP,
            Option.isNone_iff_eq_none] at hinv
          obtain ⟨⟨⟨⟨e1, e2⟩, e3⟩, e4⟩, e5⟩ := hinv
          subst e2; subst e3; subst e4; subst e5
          by_cases hv : is_numberStr s = false
          · simp [stepc, step, card, hv, applyOut, CASH, CARD, UBER, DELIVEROO, APP, END]
              at hstep
            subst hstep
            simp [sessionInvB, CASH, CARD, UBER, DELIVEROO, APP, e1]
          · simp [stepc, step, card, hv, applyOut, CASH, CARD, UBER, DELIVEROO, APP, END]
              at hstep
            subst hstep
            simp [sessionInvB, CASH, CARD, UBER, DELIVEROO, APP, e1]
        · by_cases h2 : st = UBER
          · subst h2
            simp [sessionInvB, CASH, CARD, UBER, DELIVEROO, APP,
              Option.isNone_iff_eq_none] at hinv
            obtain ⟨⟨⟨⟨e1, e2⟩, e3⟩, e4⟩, e5⟩ := hinv
            subst e3; subst e4; subst e5
            by_cases hv : is_numberStr s = false
            · simp [stepc, step, uber, hv, applyOut, CASH, CARD, UBER, DELIVEROO, APP,
                END] at hstep
              subst hstep
              simp [sessionInvB, CASH, CARD, UBER, DELIVEROO, APP, e1, e2]
            · simp [stepc, step, uber, hv, applyOut, CASH, CARD, UBER, DELIVEROO, APP,
                END] at hstep
              subst hstep
              simp [sessionInvB, CASH, CARD, UBER, DELIVEROO, APP, e1, e2]
          · by_cases h3 : st = DELIVEROO
            · subst h3
              simp [sessionInvB, CASH, CARD, UBER, DELIVEROO, APP,
                Option.isNone_iff_eq_none] at hinv
              obtain ⟨⟨⟨⟨e1, e2⟩, e3⟩, e4⟩, e5⟩ := hinv
              subst e4; subst e5
              by_cases hv : is_numberStr s = false
              · simp [stepc, step, deliveroo, hv, applyOut, CASH, CARD, UBER,
                  DELIVEROO, APP, END] at hstep
                subst hstep
                simp [sessionInvB, CASH, CARD, UBER, DELIVEROO, APP, e1, e2, e3]
              · simp [stepc, step, deliveroo, hv, applyOut, CASH, CARD, UBER,
                  DELIVEROO, APP, END] at hstep
                subst hstep
                simp [sessionInvB, CASH, CARD, UBER, DELIVEROO, APP, e1, e2, e3]
            · by_cases h4 : st = APP
              · subst h4
                simp [sessionInvB, CASH, CARD, UBER, DELIVEROO, APP,
                  Option.isNone_iff_eq_none] at hinv
                obtain ⟨⟨⟨⟨e1, e2⟩, e3⟩, e4⟩, e5⟩ := hinv
                subst e5
                obtain ⟨a1, hc1⟩ := Option.isSome_iff_exists.mp e1
                obtain ⟨a2, hc2⟩ := Option.isSome_iff_exists.mp e2
                obtain ⟨a3, hc3⟩ := Option.isSome_iff_exists.mp e3
                obtain ⟨a4, hc4⟩ := Option.isSome_iff_exists.mp e4
                subst hc1; subst hc2; subst hc3; subst hc4
                by_cases hv : is_numberStr s = false
                · simp [stepc, step, app_amount, hv, applyOut, CASH, CARD, UBER,
                    DELIVEROO, APP, END] at hstep
                  subst hstep
                  simp [sessionInvB, CASH, CARD, UBER, DELIVEROO, APP]
                · by_cases hs : env.sinkOk = true
                  · simp [stepc, step, app_amount, hv, hs, applyOut, emptySession,
                      CASH, CARD, UBER, DELIVEROO, APP, END] at hstep
                    subst hstep
                    simp [sessionInvB, emptySession]
                  · simp [stepc, step, app_amount, hv, hs, applyOut, emptySession,
                      CASH, CARD, UBER, DELIVEROO, APP, END] at hstep
                    subst hstep
                    simp [sessionInvB, emptySession]
              · simp only [sessionInvB] at hinv
                rw [if_neg h0, if_neg h1, if_neg h2, if_neg h3, if_neg h4] at hinv
                cases hinv

/-- Running a sequence of events preserves the session-shape invariant. -/
lemma inv_run (evs : List Event) :
    ∀ {cfg cfg' : Config}, sessionInvB cfg = true → run evs cfg = some cfg' →
      sessionInvB cfg' = true := by
  induction evs with
  | nil =>
    intro cfg cfg' hinv hrun
    simp only [run, Option.some.injEq] at hrun
    subst hrun
    exact hinv
  | cons e evs ih =>
    intro cfg cfg' hinv hrun
    simp only [run] at hrun
    cases h : stepc e.env e.msg cfg with
    | none => rw [h] at hrun; simp at hrun
    | some cfg2 =>
      rw [h] at hrun
      exact ih (inv_step hinv h) hrun

/-- Every reachable configuration satisfies the session-shape invariant. -/
lemma inv_reach {cfg : Config} (h : Reachable cfg) : sessionInvB cfg = true := by
  obtain ⟨evs, hrun⟩ := h
  exact inv_run evs (by decide) hrun

/-- A session with every field absent is the cleared session. -/
lemma session_eq_empty {d : Session} (h1 : d.cash = none) (h2 : d.card = none)
    (h3 : d.uber = none) (h4 : d.deliveroo = none) (h5 : d.app = none) :
    d = emptySession := by
  obtain ⟨c1, c2, c3, c4, c5⟩ := d
  simp_all [emptySession]

/-- Under the invariant, an inactive conversation has a cleared session. -/
lemma inv_none_empty {cfg : Config} (hinv : sessionInvB cfg = true)
    (hc : cfg.conv = none) : cfg.session = emptySession := by
  obtain ⟨conv, ⟨c1, c2, c3, c4, c5⟩, sh⟩ := cfg
  simp only at hc
  subst hc
  simp only [sessionInvB, Bool.and_eq_true, Option.isNone_iff_eq_none] at hinv
  obtain ⟨⟨⟨⟨e1, e2⟩, e3⟩, e4⟩, e5⟩ := hinv
  simp only
  exact session_eq_empty e1 e2 e3 e4 e5

/-- Under the invariant, the session is never fully populated. -/
lemma inv_not_full {cfg : Config} (hinv : sessionInvB cfg = true) :
    fullSession cfg.session = false := by
  obtain ⟨conv, ⟨c1, c2, c3, c4, c5⟩, sh⟩ := cfg
  simp only [sessionInvB] at hinv
  cases conv with
  | none =>
    simp only [Bool.and_eq_true, Option.isNone_iff_eq_none] at hinv
    simp [fullSession, hinv.2]
  | some st =>
    split at hinv <;> (repeat' split at hinv) <;>
      first
        | exact absurd hinv (by decide)
        | (simp only [Bool.and_eq_true, Option.isNone_iff_eq_none] at hinv
           simp [fullSession, hinv.2])

/-! ## Claim theorems -/

/-- C1 counterexample: `float("inf")` succeeds, so `is_number` returns true
on "inf", which does not parse as a finite real number (the spec-side
validator `specFiniteReal`, written from the spec's words, rejects it): the
claimed iff fails at s = "inf". -/
theorem is_number_finite_iff_cex :
    is_numberStr "inf" = true ∧ is_number (.str "inf") = Except.ok true ∧
      specFiniteReal "inf" = false := by
  refine ⟨by decide, rfl, by decide⟩

/-- C1 amended: `is_number` returns true iff the text is accepted by Python's
float conversion (`float_accepts`): an optionally signed, optionally
whitespace-padded decimal with optional fraction, exponent and underscore
grouping, or the special values inf/infinity/nan case-insensitively. In
particular "12", "12.5", "-3.2" are accepted and "", "abc", "12x" rejected as
the spec says, but the non-finite and scientific forms "inf", "nan", "1e5"
are also accepted. -/
theorem is_number_matches_float :
    (∀ s : String, is_number (.str s) = Except.ok (float_accepts s)) ∧
    is_numberStr "12" = true ∧ is_numberStr "12.5" = true ∧
    is_numberStr "-3.2" = true ∧ is_numberStr "inf" = true ∧
    is_numberStr "nan" = true ∧ is_numberStr "1e5" = true ∧
    is_numberStr "" = false ∧ is_numberStr "abc" = false ∧
    is_numberStr "12x" = false := by
  refine ⟨?_, by decide, by decide, by decide, by decide, by decide, by decide,
    by decide, by decide, by decide⟩
  intro s
  unfold is_number pyFloatTry
  cases h : float_accepts s <;> simp [h]

/-- C2 counterexample: from the reachable configuration in state CARD with
Cash = "50" already stored, a /start command is not handled at all (the
ConversationHandler has no reentry): the conversation stays in CARD rather
than moving to AWAITING_CASH, and the session keeps its prior field. -/
theorem start_midconversation_cex :
    run [⟨⟨"t", "u", true⟩, .command "start"⟩, ⟨⟨"t", "u", true⟩, .text "50"⟩] init
      = some ⟨some CARD, ⟨some "50", none, none, none, none⟩, []⟩ ∧
    step ⟨"t", "u", true⟩ (.command "start")
        ⟨some CARD, ⟨some "50", none, none, none, none⟩, []⟩
      = some (⟨some CARD, ⟨some "50", none, none, none, none⟩, []⟩, []) ∧
    (some CARD ≠ some CASH ∧
      (⟨some "50", none, none, none, none⟩ : Session) ≠ emptySession) := by
  refine ⟨by decide, by decide, by decide, by decide⟩

/-- C2 amended: a start command is dispatched only while no conversation is
active; it then transitions to AWAITING_CASH with the Cash prompt and does
not write to the session — and since in every reachable inactive
configuration the session is already cleared, the session after a handled
start contains no fields. (A start received mid-conversation is ignored.) -/
theorem start_from_inactive {env : Env} {cfg : Config} (hr : Reachable cfg)
    (hc : cfg.conv = none) :
    step env (.command "start") cfg
      = some (⟨some CASH, emptySession, cfg.sheet⟩, ["Enter Cash amount:"]) := by
  have hempty : cfg.session = emptySession := inv_none_empty (inv_reach hr) hc
  obtain ⟨conv, d, sh⟩ := cfg
  simp only at hc hempty
  subst hc
  subst hempty
  simp [step, start, applyOut, CASH, END]

theorem start_from_inactive_witness :
    Reachable init ∧ init.conv = none ∧
    (step ⟨"t", "u", true⟩ (.command "start") init
      = some (⟨some CASH, emptySession, init.sheet⟩, ["Enter Cash amount:"])) :=
  ⟨⟨[], rfl⟩, rfl, start_from_inactive ⟨[], rfl⟩ rfl⟩

/-- C7: in every reachable configuration, exactly the fields of the
already-validated states are set (none outside a conversation, none in
AWAITING_CASH, Cash in AWAITING_CARD, ..., Cash..Deliveroo in AWAITING_APP),
and the session is never fully populated between dispatches — it is
completed only inside the final handler, immediately before the row is
flushed to the sink and the session cleared. -/
theorem session_invariant_reachable {cfg : Config} (h : Reachable cfg) :
    sessionInvB cfg = true ∧ fullSession cfg.session = false :=
  ⟨inv_reach h, inv_not_full (inv_reach h)⟩

theorem session_invariant_reachable_witness :
    Reachable init ∧ sessionInvB init = true ∧ fullSession init.session = false :=
  ⟨⟨[], rfl⟩, session_invariant_reachable ⟨[], rfl⟩⟩

/-- C8: GET on each of `/`, `/health` and `/healthz` returns status 200 with
body "OK", and the three routes are bound to the same view and give the same
response. -/
theorem health_three_routes :
    healthRoute "/" = some ("OK", 200) ∧
    healthRoute "/health" = some ("OK", 200) ∧
    healthRoute "/healthz" = some ("OK", 200) ∧
    healthRoute "/" = healthRoute "/health" ∧
    healthRoute "/health" = healthRoute "/healthz" := by
  refine ⟨by decide, by decide, by decide, by decide, by decide⟩

/-- C9: `is_number` is total and exception-free — on every Python value it
returns `.ok` with a boolean (never an escaping `.error`), and whenever the
inner float conversion raises, the bare except maps the failure to false. -/
theorem is_number_total_safe :
    (∀ v : PyValue, is_number v = Except.ok true ∨ is_number v = Except.ok false) ∧
    (∀ (v : PyValue) (e : String),
      pyFloatTry v = Except.error e → is_number v = Except.ok false) := by
  constructor
  · intro v
    unfold is_number
    cases pyFloatTry v with
    | ok u => exact Or.inl rfl
    | error e => exact Or.inr rfl
  · intro v e h
    unfold is_number
    rw [h]

theorem is_number_total_safe_witness :
    pyFloatTry PyValue.pynone = Except.error "TypeError" ∧
    is_number PyValue.pynone = Except.ok false :=
  ⟨rfl, is_number_total_safe.2 PyValue.pynone "TypeError" rfl⟩

/-- C3: in each of the five awaiting states, a text input that the validator
rejects leaves the returned state, the session and the sheet unchanged, and
only the state-specific error prompt is emitted. -/
theorem invalid_input_frame (env : Env) (st : Int)
    (hst : st = CASH ∨ st = CARD ∨ st = UBER ∨ st = DELIVEROO ∨ st = APP)
    (s : String) (hv : is_numberStr s = false) (d : Session)
    (sh : List (List String)) :
    step env (.text s) ⟨some st, d, sh⟩ = some (⟨some st, d, sh⟩, [errPrompt st]) := by
  rcases hst with h | h | h | h | h <;> subst h <;>
    simp [step, cash, card, uber, deliveroo, app_amount, hv, applyOut, errPrompt,
      CASH, CARD, UBER, DELIVEROO, APP, END]

theorem invalid_input_frame_witness :
    ((CASH = CASH ∨ CASH = CARD ∨ CASH = UBER ∨ CASH = DELIVEROO ∨ CASH = APP) ∧
      is_numberStr "abc" = false) ∧
    step ⟨"t", "u", true⟩ (.text "abc") ⟨some CASH, emptySession, []⟩
      = some (⟨some CASH, emptySession, []⟩, [errPrompt CASH]) :=
  ⟨⟨Or.inl rfl, by decide⟩,
    invalid_input_frame ⟨"t", "u", true⟩ CASH (Or.inl rfl) "abc" (by decide)
      emptySession []⟩

/-- C4: five accepted inputs submitted in order from AWAITING_CASH walk
AWAITING_CASH → AWAITING_CARD → AWAITING_UBER → AWAITING_DELIVEROO →
AWAITING_APP → terminated, each transition exactly once, and append exactly
one row [timestamp, sender name, v1, v2, v3, v4, v5] to the sheet. -/
theorem full_run_happy (env : Env) (sh : List (List String))
    (v1 v2 v3 v4 v5 : String)
    (h1 : is_numberStr v1 = true) (h2 : is_numberStr v2 = true)
    (h3 : is_numberStr v3 = true) (h4 : is_numberStr v4 = true)
    (h5 : is_numberStr v5 = true) (hOk : env.sinkOk = true) :
    step env (.text v1) ⟨some CASH, emptySession, sh⟩
      = some (⟨some CARD, ⟨some v1, none, none, none, none⟩, sh⟩,
          ["Enter Card amount:"]) ∧
    step env (.text v2) ⟨some CARD, ⟨some v1, none, none, none, none⟩, sh⟩
      = some (⟨some UBER, ⟨some v1, some v2, none, none, none⟩, sh⟩,
          ["Enter Uber amount:"]) ∧
    step env (.text v3) ⟨some UBER, ⟨some v1, some v2, none, none, none⟩, sh⟩
      = some (⟨some DELIVEROO, ⟨some v1, some v2, some v3, none, none⟩, sh⟩,
          ["Enter Deliveroo amount:"]) ∧
    step env (.text v4) ⟨some DELIVEROO, ⟨some v1, some v2, some v3, none, none⟩, sh⟩
      = some (⟨some APP, ⟨some v1, some v2, some v3, some v4, none⟩, sh⟩,
          ["Enter App amount:"]) ∧
    step env (.text v5) ⟨some APP, ⟨some v1, some v2, some v3, some v4, none⟩, sh⟩
      = some (⟨none, emptySession, sh ++ [[env.ts, env.name, v1, v2, v3, v4, v5]]⟩,
          ["✅ All values saved successfully!"]) ∧
    run [⟨env, .text v1⟩, ⟨env, .text v2⟩, ⟨env, .text v3⟩, ⟨env, .text v4⟩,
        ⟨env, .text v5⟩] ⟨some CASH, emptySession, sh⟩
      = some ⟨none, emptySession, sh ++ [[env.ts, env.name, v1, v2, v3, v4, v5]]⟩ := by
  have hA : step env (.text v1) ⟨some CASH, emptySession, sh⟩
      = some (⟨some CARD, ⟨some v1, none, none, none, none⟩, sh⟩,
          ["Enter Card amount:"]) := by
    simp [step, cash, h1, applyOut, emptySession, CASH, CARD, END]
  have hB : step env (.text v2) ⟨some CARD, ⟨some v1, none, none, none, none⟩, sh⟩
      = some (⟨some UBER, ⟨some v1, some v2, none, none, none⟩, sh⟩,
          ["Enter Uber amount:"]) := by
    simp [step, card, h2, applyOut, CASH, CARD, UBER, END]
  have hC : step env (.text v3) ⟨some UBER, ⟨some v1, some v2, none, none, none⟩, sh⟩
      = some (⟨some DELIVEROO, ⟨some v1, some v2, some v3, none, none⟩, sh⟩,
          ["Enter Deliveroo amount:"]) := by
    simp [step, uber, h3, applyOut, CASH, CARD, UBER, DELIVEROO, END]
  have hD : step env (.text v4)
        ⟨some DELIVEROO, ⟨some v1, some v2, some v3, none, none⟩, sh⟩
      = some (⟨some APP, ⟨some v1, some v2, some v3, some v4, none⟩, sh⟩,
          ["Enter App amount:"]) := by
    simp [step, deliveroo, h4, applyOut, CASH, CARD, UBER, DELIVEROO, APP, END]
  have hE : step env (.text v5)
        ⟨some APP, ⟨some v1, some v2, some v3, some v4, none⟩, sh⟩
      = some (⟨none, emptySession, sh ++ [[env.ts, env.name, v1, v2, v3, v4, v5]]⟩,
          ["✅ All values saved successfully!"]) := by
    simp [step, app_amount, h5, hOk, applyOut, emptySession, CASH, CARD, UBER,
      DELIVEROO, APP, END]
  refine ⟨hA, hB, hC, hD, hE, ?_⟩
  simp [run, stepc, hA, hB, hC, hD, hE]

theorem full_run_happy_witness :
    (is_numberStr "50" = true ∧ is_numberStr "20" = true ∧
      is_numberStr "10" = true ∧ is_numberStr "5" = true ∧
      is_numberStr "15" = true) ∧
    run [⟨⟨"2024-01-01 12:00:00", "Alice Example", true⟩, .text "50"⟩,
        ⟨⟨"2024-01-01 12:00:00", "Alice Example", true⟩, .text "20"⟩,
        ⟨⟨"2024-01-01 12:00:00", "Alice Example", true⟩, .text "10"⟩,
        ⟨⟨"2024-01-01 12:00:00", "Alice Example", true⟩, .text "5"⟩,
        ⟨⟨"2024-01-01 12:00:00", "Alice Example", true⟩, .text "15"⟩]
        ⟨some CASH, emptySession, []⟩
      = some ⟨none, emptySession,
          [["2024-01-01 12:00:00", "Alice Example", "50", "20", "10", "5", "15"]]⟩ :=
  ⟨⟨by decide, by decide, by decide, by decide, by decide⟩,
    (full_run_happy ⟨"2024-01-01 12:00:00", "Alice Example", true⟩ []
      "50" "20" "10" "5" "15" (by decide) (by decide) (by decide) (by decide)
      (by decide) rfl).2.2.2.2.2⟩

/-- C5: when the append to the sheet fails, the final handler sends the fixed
failure message, appends nothing (no retry, no partial record), clears the
session exactly as on success, and ends the conversation; on both branches
the session ends cleared and the conversation terminated. -/
theorem sink_failure_clears (env : Env) (v c1 c2 c3 c4 : String)
    (hv : is_numberStr v = true) (sh : List (List String)) :
    (env.sinkOk = false →
      step env (.text v) ⟨some APP, ⟨some c1, some c2, some c3, some c4, none⟩, sh⟩
        = some (⟨none, emptySession, sh⟩,
            ["❌ Error saving to Google Sheet. Check logs."])) ∧
    (env.sinkOk = true →
      step env (.text v) ⟨some APP, ⟨some c1, some c2, some c3, some c4, none⟩, sh⟩
        = some (⟨none, emptySession, sh ++ [[env.ts, env.name, c1, c2, c3, c4, v]]⟩,
            ["✅ All values saved successfully!"])) := by
  constructor <;> intro hs <;>
    simp [step, app_amount, hv, hs, applyOut, emptySession, CASH, CARD, UBER,
      DELIVEROO, APP, END]

theorem sink_failure_clears_witness :
    is_numberStr "15" = true ∧
    step ⟨"ts", "Bob", false⟩ (.text "15")
        ⟨some APP, ⟨some "50", some "20", some "10", some "5", none⟩, [["old"]]⟩
      = some (⟨none, emptySession, [["old"]]⟩,
          ["❌ Error saving to Google Sheet. Check logs."]) :=
  ⟨by decide,
    (sink_failure_clears ⟨"ts", "Bob", false⟩ "15" "50" "20" "10" "5" (by decide)
      [["old"]]).1 rfl⟩

/-- C6: the cancel command, received in any of the five non-terminal states
with any session content, clears the session, ends the conversation, and
appends nothing to the sheet. -/
theorem cancel_clears (env : Env) (st : Int)
    (hst : st = CASH ∨ st = CARD ∨ st = UBER ∨ st = DELIVEROO ∨ st = APP)
    (d : Session) (sh : List (List String)) :
    step env (.command "cancel") ⟨some st, d, sh⟩
      = some (⟨none, emptySession, sh⟩, ["Entry cancelled."]) := by
  simp [step, cancel, applyOut, END]

theorem cancel_clears_witness :
    (APP = CASH ∨ APP = CARD ∨ APP = UBER ∨ APP = DELIVEROO ∨ APP = APP) ∧
    step ⟨"t", "u", true⟩ (.command "cancel")
        ⟨some APP, ⟨some "1", some "2", some "3", some "4", none⟩, []⟩
      = some (⟨none, emptySession, []⟩, ["Entry cancelled."]) :=
  ⟨Or.inr (Or.inr (Or.inr (Or.inr rfl))),
    cancel_clears ⟨"t", "u", true⟩ APP (Or.inr (Or.inr (Or.inr (Or.inr rfl))))
      ⟨some "1", some "2", some "3", some "4", none⟩ []⟩

/-- C10: in each of the five awaiting states, a command message is never
dispatched to the amount handler (the per-state handlers are registered with
`filters.TEXT & ~filters.COMMAND`): any command other than cancel leaves the
configuration untouched and emits nothing — in particular it is never
validated or stored as an amount — and the only command handled
mid-conversation is the cancel fallback. -/
theorem commands_filtered (env : Env) (st : Int)
    (hst : st = CASH ∨ st = CARD ∨ st = UBER ∨ st = DELIVEROO ∨ st = APP)
    (n : String) (d : Session) (sh : List (List String)) :
    (n ≠ "cancel" →
      step env (.command n) ⟨some st, d, sh⟩ = some (⟨some st, d, sh⟩, [])) ∧
    step env (.command "cancel") ⟨some st, d, sh⟩
      = some (⟨none, emptySession, sh⟩, ["Entry cancelled."]) := by
  constructor
  · intro hn
    simp [step, hn]
  · simp [step, cancel, applyOut, END]

theorem commands_filtered_witness :
    (("start" : String) ≠ "cancel") ∧
    step ⟨"t", "u", true⟩ (.command "start")
        ⟨some CARD, ⟨some "50", none, none, none, none⟩, []⟩
      = some (⟨some CARD, ⟨some "50", none, none, none, none⟩, []⟩, []) :=
  ⟨by decide,
    (commands_filtered ⟨"t", "u", true⟩ CARD (Or.inr (Or.inl rfl)) "start"
      ⟨some "50", none, none, none, none⟩ []).1 (by decide)⟩

end CleosBot
